import Mathlib

/-!
Verification development for the anaconda worker supervision subsystem
(`anaconda_lib/worker.py`).

The module coordinates a background JSON analysis server: a session registry
(`Worker.execute`), a shared supervision contract (`BaseWorker`), a local
supervisor (`LocalWorker`) that spawns and health-checks a subprocess, and a
remote supervisor (`RemoteWorker`) driven by a vagrant configuration.

The embedding below renders each method of the source as an executable Lean
function.  External effects (socket probes, port allocation, subprocess
creation, process polling, the health-check wire exchange) are supplied by an
environment of oracles consumed in call order; every observable action is
recorded in an event trace.  Unbounded polling loops take a fuel parameter and
answer `diverge`-style outcomes when the fuel runs out, which models the
source's unbounded busy-waits without fabricating termination.
-/

namespace Anaconda

/-- An RPC client handle.  The `jsonclient.AsynClient` class itself is outside
the sources under analysis; per the specification the RPC client is bound to a
`(hostname, port)` endpoint and offers a `connected` query, `send_command` and
`close`.  The `connected` field is the value the `connected` query would
return. -/
structure Client where
  host : String
  port : Option Nat
  connected : Bool
deriving DecidableEq

/-- State of a `LocalWorker` (fields assigned in `BaseWorker.__init__`,
worker.py lines 35-41; `last_error` is never consulted by the code under
analysis and is omitted). -/
structure LW where
  hostname : String
  available_port : Option Nat
  reconnecting : Bool
  process : Option Nat
  client : Option Client
deriving DecidableEq

/-- BaseWorker.__init__ (worker.py 35-41): hostname `localhost`, no port, not
reconnecting, no process, no client. -/
def LW.base : LW :=
  { hostname := "localhost", available_port := none, reconnecting := false
    process := none, client := none }

/-- Observable events of the worker subsystem, in the order the source
performs them. -/
inductive Ev where
  /-- one `server_is_active` TCP probe of `(hostname, available_port)` and
  its result -/
  | probe (host : String) (port : Option Nat) (ok : Bool)
  /-- one completed `server_is_healthy` check and its result -/
  | health (ok : Bool)
  /-- `server_is_healthy` raised before checking: `self.process` is `None`
  so `self.process.poll()` raises `AttributeError` -/
  | healthExn
  /-- the call `self.sanitize_server()` in `start_json_server` -/
  | sanitizeCall
  /-- `self.client.close()` in `sanitize_server` -/
  | closeClient
  /-- `self.process.kill()` in `sanitize_server` on process handle `p` -/
  | kill (p : Nat)
  /-- `create_subprocess` in `build_server`: spawn of the json server on
  `port` yielding process handle `pid` -/
  | spawn (port : Option Nat) (pid : Nat)
  /-- construction of `AsynClient`, binding the RPC client -/
  | bind (host : String) (port : Option Nat)
  /-- one `client.send_command(callback, **data)` call -/
  | send
deriving DecidableEq

/-- Environment of external oracles, each consumed in call order by its own
counter: `probe n` is the result of the `n`-th TCP reachability probe
(`True` = connect succeeded, `False` = refused or other socket error, both of
which `server_is_active` maps to `False`); `alloc n` is the `n`-th ephemeral
port handed out by the OS in `LocalWorker.port`; `pid n` is the `n`-th process
handle returned by `create_subprocess`; `poll n` is what `process.poll()`
returns during the `n`-th health check (`none` = still running); `exch n` is
the socket exchange of the `n`-th health check, as a function of the request
payload, yielding the decoded received bytes or an exception. -/
structure Env where
  probe : Nat → Bool
  alloc : Nat → Nat
  pid : Nat → Nat
  poll : Nat → Option Int
  exch : Nat → String → Except Unit (List Nat)

/-- World: the oracle consumption counters together with the event trace. -/
structure W where
  nProbe : Nat
  nAlloc : Nat
  nPid : Nat
  nHealth : Nat
  trace : List Ev
deriving DecidableEq

/-- The initial world: no oracle consumed, empty trace. -/
def W.base : W := { nProbe := 0, nAlloc := 0, nPid := 0, nHealth := 0, trace := [] }

/-- Append one event to the trace. -/
def emit (w : W) (e : Ev) : W := { w with trace := w.trace ++ [e] }

/-- Consume one reachability-probe oracle. -/
def W.bumpProbe (w : W) : W := { w with nProbe := w.nProbe + 1 }

/-- Consume one port-allocation oracle. -/
def W.bumpAlloc (w : W) : W := { w with nAlloc := w.nAlloc + 1 }

/-- Consume one subprocess-creation oracle. -/
def W.bumpPid (w : W) : W := { w with nPid := w.nPid + 1 }

/-- Consume one health-check oracle. -/
def W.bumpHealth (w : W) : W := { w with nHealth := w.nHealth + 1 }

/-- Python truthiness of an optional integer, as tested by
`if not self.available_port:` (worker.py 134): `None` and `0` are falsy. -/
def pyTruthy : Option Nat → Bool
  | none => false
  | some 0 => false
  | some (_ + 1) => true

/-- The bytes of the literal success token `b'Ok'`. -/
def OkBytes : List Nat := [79, 107]

/-- The literal health-check request payload written by `server_is_healthy`
(worker.py 92). -/
def checkPayload : String := "\x7b\"method\": \"check\"\x7d"

/-- BaseWorker.server_is_healthy (worker.py 83-105), as a pure function of
its two external inputs: `pollResult` is `self.process.poll()` (`none` means
the process is still running), and `exch` is the socket exchange (connect
with 500ms timeout, send the payload, receive up to 1024 bytes, decode) as a
function of the request payload, where `Except.error` stands for any
exception raised during the exchange (timeout, reset, decode failure).
Returns `(healthy, exchangeAttempted)`: when the process is still running the
exchange is attempted and the result is the exact comparison `data == b'Ok'`;
when `poll()` reports the process has exited, the method logs that something
else is using the port and returns `False` without touching the socket. -/
def server_is_healthy_pure (pollResult : Option Int)
    (exch : String → Except Unit (List Nat)) : Bool × Bool :=
  match pollResult with
  | none =>
    match exch checkPayload with
    | Except.error _ => (false, true)
    | Except.ok data => (decide (data = OkBytes), true)
  | some _ => (false, false)

/-- Outcome of running one worker method: `ok` is a normal return, `exn` is a
Python exception escaping the method, `diverge` means the method was still
inside one of its unbounded loops (or unbounded `start_json_server`/
`sanitize_server` recursion) when the fuel ran out. -/
inductive Outcome where
  | ok (st : LW) (w : W)
  | exn (st : LW) (w : W)
  | diverge (st : LW) (w : W)
deriving DecidableEq

/-- The worker state carried by an outcome. -/
def Outcome.stOf : Outcome → LW
  | .ok st _ => st
  | .exn st _ => st
  | .diverge st _ => st

/-- The event trace carried by an outcome. -/
def Outcome.traceOf : Outcome → List Ev
  | .ok _ w => w.trace
  | .exn _ w => w.trace
  | .diverge _ w => w.trace

/-- Whether an outcome is a normal return. -/
def Outcome.isOk : Outcome → Bool
  | .ok _ _ => true
  | _ => false

/-- BaseWorker.server_is_active (worker.py 64-81): TCP-connect to
`(hostname, available_port)`; success gives `True`, connection-refused gives
`False`, and any other socket error is logged and also gives `False` — the
probe oracle already folds the two `False` cases together. -/
def server_is_active (env : Env) (st : LW) (w : W) : Bool × W :=
  let r := env.probe w.nProbe
  (r, emit w.bumpProbe (Ev.probe st.hostname st.available_port r))

/-- BaseWorker.server_is_healthy (worker.py 83-105) inside the trace model:
`self.process.poll()` raises `AttributeError` when `self.process` is `None`
(the attribute access on `None` fails before any check happens); otherwise
the result is `server_is_healthy_pure` on the next health oracle.
`Sum.inl` is the raised exception, `Sum.inr` the boolean answer. -/
def server_is_healthy_run (env : Env) (st : LW) (w : W) : W ⊕ (Bool × W) :=
  match st.process with
  | none => Sum.inl (emit w Ev.healthExn)
  | some _ =>
    let b := (server_is_healthy_pure (env.poll w.nHealth) (env.exch w.nHealth)).1
    Sum.inr (b, emit w.bumpHealth (Ev.health b))

/-- LocalWorker.build_server (worker.py 158-194): resolves the interpreter,
script path and extra paths (all host configuration, absent from the oracle
state), then spawns the json server on `available_port` via
`create_subprocess` and stores the handle.  The spawn itself is the next
`pid` oracle. -/
def build_server (env : Env) (st : LW) (w : W) : Outcome :=
  let pid := env.pid w.nPid
  Outcome.ok { st with process := some pid }
    (emit w.bumpPid (Ev.spawn st.available_port pid))

/-- The first two statements of LocalWorker.sanitize_server (worker.py
154-155): `self.client.close()` then `self.process.kill()`.  When either
attribute is `None` the attribute access raises `AttributeError`
(`Sum.inl`); otherwise the killed handle and the new world are returned.
Neither statement rebinds `self.client` or `self.process`, so the worker
state is unchanged. -/
def sanitize_steps (st : LW) (w : W) : W ⊕ (Nat × W) :=
  match st.client with
  | none => Sum.inl w
  | some _ =>
    let w := emit w Ev.closeClient
    match st.process with
    | none => Sum.inl w
    | some p => Sum.inr (p, emit w (Ev.kill p))

/-- BaseWorker.start_json_server (worker.py 50-62): if the endpoint is
reachable, return when healthy, otherwise call `sanitize_server`; if not
reachable, call `build_server`.  The mutual recursion
`sanitize_server → start_json_server` is bounded by `fuel`; `Ev.sanitizeCall`
marks the `self.sanitize_server()` call site, whose body (close, kill,
recursive `start_json_server`) is inlined here through `sanitize_steps`. -/
def start_json_server (env : Env) (st : LW) : Nat → W → Outcome
  | fuel, w =>
    match server_is_active env st w with
    | (false, w) => build_server env st w
    | (true, w) =>
      match server_is_healthy_run env st w with
      | Sum.inl w => Outcome.exn st w
      | Sum.inr (true, w) => Outcome.ok st w
      | Sum.inr (false, w) =>
        match fuel with
        | 0 => Outcome.diverge st (emit w Ev.sanitizeCall)
        | n + 1 =>
          match sanitize_steps st (emit w Ev.sanitizeCall) with
          | Sum.inl w => Outcome.exn st w
          | Sum.inr (_, w) => start_json_server env st n w

/-- LocalWorker.sanitize_server (worker.py 150-156): close the client, kill
the process, then re-run `start_json_server`. -/
def sanitize_server (env : Env) (st : LW) (fuel : Nat) (w : W) : Outcome :=
  match sanitize_steps st w with
  | Sum.inl w => Outcome.exn st w
  | Sum.inr (_, w) => start_json_server env st fuel w

/-- The busy-wait `while not self.server_is_active(): time.sleep(0.01)`
(worker.py 142-143), bounded by fuel: `none` means the loop was still
spinning after `fuel` probes. -/
def poll_active (env : Env) (st : LW) : Nat → W → Option W
  | 0, _ => none
  | fuel + 1, w =>
    let a := server_is_active env st w
    if a.1 then some a.2 else poll_active env st fuel a.2

/-- LocalWorker.port (worker.py 118-128): bind an ephemeral port, read the
assigned number, release the socket.  The number is the next allocation
oracle. -/
def local_port (env : Env) (w : W) : Nat × W := (env.alloc w.nAlloc, w.bumpAlloc)

/-- Construction of the RPC client, `AsynClient(self.available_port)`
(worker.py 145).  Modelled from the spec: `jsonclient.AsynClient` is not
among the sources under analysis; per the specification the client is
constructed bound to `(hostname, port)` — for a local worker the hostname is
the loopback — and a freshly bound client reports itself connected. -/
def asyn_client (port : Option Nat) : Client :=
  { host := "localhost", port := port, connected := true }

/-- The reachability wait and client binding at the end of LocalWorker.start
(worker.py 142-145): busy-wait until `server_is_active`, then bind the RPC
client to the assigned port. -/
def bind_client (env : Env) (st : LW) (w : W) (fuel : Nat) : Outcome :=
  match poll_active env st fuel w with
  | none => Outcome.diverge st w
  | some w =>
    Outcome.ok { st with client := some (asyn_client st.available_port) }
      (emit w (Ev.bind "localhost" st.available_port))

/-- The remainder of the `try` body of LocalWorker.start: `start_json_server`
then the reachability wait and client binding (`bind_client`).  An exception
from `start_json_server` is logged and swallowed (`Outcome.exn` becomes a
normal return with the client unchanged). -/
def start_tail (env : Env) (st : LW) (w : W) (fuel : Nat) : Outcome :=
  match start_json_server env st fuel w with
  | Outcome.diverge st w => Outcome.diverge st w
  | Outcome.exn st w => Outcome.ok st w
  | Outcome.ok st w => bind_client env st w fuel

/-- LocalWorker.start (worker.py 130-148): allocate a port when none is
assigned yet (Python truthiness, so `None` and `0` both allocate); inside
the `try`, allocate a fresh port when `reconnecting` is `True`; then run the
`start_tail` body (start the json server, busy-wait on reachability, bind
the client). -/
def start (env : Env) (st : LW) (w : W) (fuel : Nat) : Outcome :=
  let s1 :=
    if pyTruthy st.available_port then (st, w)
    else
      let a := local_port env w
      ({ st with available_port := some a.1 }, a.2)
  let s2 :=
    if s1.1.reconnecting then
      let a := local_port env s1.2
      ({ s1.1 with available_port := some a.1 }, a.2)
    else s1
  start_tail env s2.1 s2.2 fuel

/-- The final statement of LocalWorker._execute after a reconnecting
restart, `self.client.send_command(callback, **data)` (worker.py 205): the
client attribute is re-read after `start()` returned; were it `None` the
attribute access would raise `AttributeError` (it cannot be, since `start`
never clears it).  A diverging restart never reaches the send. -/
def execute_send (o : Outcome) : Outcome :=
  match o with
  | Outcome.diverge st w => Outcome.diverge st w
  | Outcome.exn st w => Outcome.exn st w
  | Outcome.ok st w =>
    match st.client with
    | none => Outcome.exn st w
    | some _ => Outcome.ok st (emit w Ev.send)

/-- LocalWorker._execute (worker.py 196-205): with no client bound, do
nothing; with a connected client, send the command; with a disconnected
client, set `reconnecting`, call `start()`, and send through the client
re-read after the restart (`execute_send`). -/
def local_execute (env : Env) (st : LW) (w : W) (fuel : Nat) : Outcome :=
  match st.client with
  | none => Outcome.ok st w
  | some c =>
    if c.connected then Outcome.ok st (emit w Ev.send)
    else execute_send (start env { st with reconnecting := true } w fuel)

/-- Result of one registry `Worker.execute` call for one session: `ok` is a
normal return with the (possibly updated) map entry, `keyError` is the
`KeyError` raised by `worker = WORKERS[window_id]` when no entry exists,
`diverge` means the call was still polling when the fuel ran out. -/
inductive ExecResult where
  | ok (entry : Option LW) (w : W)
  | keyError (w : W)
  | exn (entry : Option LW) (w : W)
  | diverge (entry : Option LW) (w : W)
deriving DecidableEq

/-- The map entry carried by a registry result (`none` after `keyError`). -/
def ExecResult.entryOf : ExecResult → Option LW
  | .ok e _ => e
  | .keyError _ => none
  | .exn e _ => e
  | .diverge e _ => e

/-- The trace carried by a registry result. -/
def ExecResult.traceOf : ExecResult → List Ev
  | .ok _ w => w.trace
  | .keyError w => w.trace
  | .exn _ w => w.trace
  | .diverge _ w => w.trace

/-- Conversion of a `start()` call's outcome into the registry execute
result: the registry's start branches return without forwarding anything. -/
def dispatch_start (o : Outcome) : ExecResult :=
  match o with
  | Outcome.diverge st w => ExecResult.diverge (some st) w
  | Outcome.exn st w => ExecResult.exn (some st) w
  | Outcome.ok st w => ExecResult.ok (some st) w

/-- The dispatch half of Worker.execute (worker.py 333-341): with a bound,
disconnected client the reconnecting flag is set and `start()` runs (no
send); with a bound, connected client the command is sent; with no client,
`start()` runs (no send). -/
def worker_dispatch (env : Env) (worker : LW) (w : W) (fuel : Nat) : ExecResult :=
  match worker.client with
  | some c =>
    if c.connected = false then
      dispatch_start (start env { worker with reconnecting := true } w fuel)
    else ExecResult.ok (some worker) (emit w Ev.send)
  | none => dispatch_start (start env worker w fuel)

/-- Worker.execute (worker.py 316-341) for one session id: the
lookup-or-create step under the registry lock, then `worker_dispatch` on
the found worker.  `entry` is the current `WORKERS[window_id]` entry;
`construct` is the outcome of the supervisor constructor chosen by
`vagrant_is_active()` — `LocalWorker()` is `Except.ok LW.base` and never
raises, while `RemoteWorker()` may raise (for example `KeyError` inside
`check_config` when the vagrant configuration lacks the `network` key; it
may also block forever in `check_status`, a run shape this function does
not represent).  A raising constructor is logged and leaves no entry; the
subsequent unguarded lookup `worker = WORKERS[window_id]` then raises
`KeyError`. -/
def worker_execute (env : Env) (entry : Option LW) (construct : Except Unit LW)
    (w : W) (fuel : Nat) : ExecResult :=
  let entry :=
    match entry with
    | some lw => some lw
    | none =>
      match construct with
      | Except.ok lw => some lw
      | Except.error _ => none
  match entry with
  | none => ExecResult.keyError w
  | some worker => worker_dispatch env worker w fuel

/-- The `network` sub-dictionary of a vagrant configuration; each field is
`none` when the key is absent. -/
structure VNetwork where
  address : Option String
  port : Option Nat
  mode : Option String
deriving DecidableEq

/-- A `vagrant_environment` configuration dictionary (`directory`, `network`,
`machine`), each key optional.  (The embedding represents the `network` value
as this record, so a present-but-empty `network` dictionary is identified
with a record of three absent fields; `check_config` only ever reads it
through `.get`, for which the two are indistinguishable, except for dict
truthiness on the `network` value itself, where a present record counts as
truthy.) -/
structure VagrantConfig where
  directory : Option String
  network : Option VNetwork
  machine : Option String
deriving DecidableEq

/-- Python truthiness of the `directory` entry (`not self.config.get('directory')`):
an absent key or an empty string is falsy. -/
def pyTruthyStr : Option String → Bool
  | none => false
  | some s => !(s == "")

/-- State of a `RemoteWorker`: the `BaseWorker` fields it reassigns plus the
`support` attribute, which is unset (`none`) until first assigned. -/
structure RW where
  hostname : Option String
  available_port : Option Nat
  reconnecting : Bool
  support : Option Bool
deriving DecidableEq

/-- The `RemoteWorker` state right after `super().__init__()`: hostname is
the loopback, no port, not reconnecting, `support` not yet assigned. -/
def RW.base : RW :=
  { hostname := some "localhost", available_port := none
    reconnecting := false, support := none }

/-- The result `(success, out, error)` delivered by the external
`VagrantStatus` check. -/
structure VResult where
  success : Bool
  out : List Nat
  err : List Nat
deriving DecidableEq

/-- RemoteWorker.check_config (worker.py 255-278): compute `success` from
the presence of `directory`, `network`, `network.mode` and `network.port`;
on failure show a diagnostic and set `self.support = False`.  The subscript
`self.config['network']` on line 263 raises `KeyError` (`Except.error`)
when the `network` key is absent — note that the first check has already
run at that point.  On a normal return the pair is (updated worker,
returned `success`). -/
def check_config (cfg : VagrantConfig) (st : RW) : Except RW (RW × Bool) :=
  let success := true
  let success :=
    if !(pyTruthyStr cfg.directory) || !(cfg.network.isSome) then false
    else success
  match cfg.network with
  | none => Except.error st
  | some net =>
    let success := if net.mode = none then false else success
    let success := if net.port = none then false else success
    if success = false then Except.ok ({ st with support := some false }, false)
    else Except.ok (st, true)

/-- The `status` callback closed over by RemoteWorker.check_status
(worker.py 286-294), applied to the delivered result.  Python scoping: the
assignment `checked = True` inside the callback binds a variable local to
the callback (there is no `nonlocal checked` declaration), so it does not
modify the `checked` flag of the enclosing `check_status` frame; the only
effect on shared state is `self.support = False` on the failure branch (the
`assert checked` on the success branch tests the callback-local binding and
always passes).  Returns the updated worker together with the enclosing
frame's `checked` flag after the callback ran. -/
def status_callback (st : RW) (enclosingChecked : Bool) (r : VResult) : RW × Bool :=
  if r.success = false then ({ st with support := some false }, enclosingChecked)
  else (st, enclosingChecked)

/-- The polling loop `while not checked: time.sleep(0.01)` of
RemoteWorker.check_status (worker.py 297-298), bounded by fuel.  The loop
body is a bare sleep, so the `checked` flag it reads is constant across
iterations; `some ()` means the loop exited within `fuel` condition checks,
`none` that it was still spinning. -/
def check_status_loop (checked : Bool) : Nat → Option Unit
  | 0 => none
  | fuel + 1 => if checked then some () else check_status_loop checked fuel

/-- Outcome of RemoteWorker.__init__: `exn` is a raised exception, `hang`
means the constructor is blocked inside the `check_status` polling loop
(the state shown is the one the loop spins on, before the asynchronous
callback has delivered). -/
inductive RInit where
  | exn (st : RW)
  | hang (st : RW)
deriving DecidableEq

/-- RemoteWorker.__init__ (worker.py 212-219): after `super().__init__()`,
read the configuration, run `check_config` (its returned `success` is
ignored), set `hostname` from `network.address` and `available_port` from
`network.port` with default `19360` (the `port` property, worker.py
221-226), then call `check_status`.  `check_status` registers the `status`
callback with `VagrantStatus` and enters its polling loop; since nothing
can set the polled frame-local `checked` flag (see `status_callback`), the
loop spins forever and the final statement `self.support = True` (line 219)
is never reached, so construction hangs with the state shown.  The
constructor performs no `server_is_active` probe: probing only happens in
`start`, which is only called after construction. -/
def remote_init (cfg : VagrantConfig) : RInit :=
  let st := RW.base
  match check_config cfg st with
  | Except.error st => RInit.exn st
  | Except.ok (st, _) =>
    match cfg.network with
    | none => RInit.exn st
    | some net =>
      let st := { st with hostname := net.address
                          available_port := some (net.port.getD 19360) }
      RInit.hang st

/-- The final statement of RemoteWorker.__init__, `self.support = True`
(worker.py 219) — the statement that would run if `check_status` ever
returned. -/
def remote_init_tail (st : RW) : RW := { st with support := some true }

/-- Number of `send` events in a trace: how many times a command was
forwarded through the RPC client. -/
def sends : List Ev → Nat
  | [] => 0
  | Ev.send :: t => sends t + 1
  | _ :: t => sends t

/-- The environment of the first-execute scenario: the `n`-th reachability
probe is refused while `n < k` and succeeds from `n = k` on, every ephemeral
allocation yields port `p`, every spawn yields handle `pid`, and the health
oracles are never consulted on this path. -/
def envK (k p pid : Nat) : Env :=
  { probe := fun n => decide (k ≤ n), alloc := fun _ => p, pid := fun _ => pid
    poll := fun _ => none, exch := fun _ _ => Except.error () }

/-- The bytes of `b'vagrant not running'`, the error payload of the remote
status-check scenario. -/
def vagrantNotRunning : List Nat := "vagrant not running".toList.map Char.toNat

/-! ## Helper lemmas -/

/-- Counting forwarded commands distributes over trace concatenation. -/
theorem sends_append (a b : List Ev) : sends (a ++ b) = sends a + sends b := by
  induction a with
  | nil => simp [sends]
  | cons e t ih =>
    cases e
    all_goals simp [sends, ih]
    all_goals omega

/-- The supervision contract only ever rewrites the `process` field of the
worker: reachability probing, health checking, kill and respawn leave
`hostname`, `available_port`, `reconnecting` and `client` untouched. -/
theorem start_json_server_stOf (env : Env) (st : LW) :
    ∀ fuel w,
      (start_json_server env st fuel w).stOf.hostname = st.hostname ∧
      (start_json_server env st fuel w).stOf.available_port = st.available_port ∧
      (start_json_server env st fuel w).stOf.reconnecting = st.reconnecting ∧
      (start_json_server env st fuel w).stOf.client = st.client := by
  intro fuel
  induction fuel using Nat.strong_induction_on with
  | _ fuel ih =>
    intro w
    rw [start_json_server]
    repeat' split
    all_goals first
      | exact ih _ (by omega) _
      | simp [build_server, Outcome.stOf]

/-- The reachability busy-wait records probe events only: when it exits, no
command was forwarded during the wait. -/
theorem poll_active_sends (env : Env) (st : LW) :
    ∀ fuel w w', poll_active env st fuel w = some w' →
      sends w'.trace = sends w.trace := by
  intro fuel
  induction fuel with
  | zero =>
    intro w w' h
    simp [poll_active] at h
  | succ n ih =>
    intro w w' h
    rw [poll_active] at h
    cases hb : env.probe w.nProbe
    · simp only [server_is_active, hb, Bool.false_eq_true, if_false] at h
      have := ih _ _ h
      simpa [emit, W.bumpProbe, sends_append, sends] using this
    · simp only [server_is_active, hb, if_true] at h
      obtain rfl := (Option.some.injEq _ _).mp h
      simp [emit, W.bumpProbe, sends_append, sends]

/-- Under the scenario environment the reachability busy-wait exits as soon
as the probe counter reaches `k`, which happens within the fuel bound. -/
theorem poll_active_envK (k p pid : Nat) (st : LW) :
    ∀ fuel w, w.nProbe ≤ k → k < w.nProbe + fuel →
      ∃ w', poll_active (envK k p pid) st fuel w = some w' := by
  intro fuel
  induction fuel with
  | zero =>
    intro w h1 h2
    omega
  | succ n ih =>
    intro w h1 h2
    rw [poll_active]
    rcases Nat.lt_or_ge w.nProbe k with hlt | hge
    · have hd : (envK k p pid).probe w.nProbe = false := by
        simp only [envK, decide_eq_false_iff_not]
        omega
      simp only [server_is_active, hd, Bool.false_eq_true, if_false]
      exact ih _ (by simp [emit, W.bumpProbe]; omega) (by simp [emit, W.bumpProbe]; omega)
    · have hd : (envK k p pid).probe w.nProbe = true := by
        simp only [envK, decide_eq_true_eq]
        omega
      simp only [server_is_active, hd, if_true]
      exact ⟨_, rfl⟩

/-- The reachability wait and client binding preserve `hostname`,
`available_port` and `reconnecting`: only `client` changes. -/
theorem bind_client_fields (env : Env) (st : LW) (w : W) (fuel : Nat) :
    (bind_client env st w fuel).stOf.hostname = st.hostname ∧
    (bind_client env st w fuel).stOf.available_port = st.available_port ∧
    (bind_client env st w fuel).stOf.reconnecting = st.reconnecting := by
  unfold bind_client
  cases hp : poll_active env st fuel w <;> simp [Outcome.stOf]

/-- The body of `start` after the port branches preserves `hostname`,
`available_port` and `reconnecting`: only `process` (respawn) and `client`
(rebind) can change. -/
theorem start_tail_fields (env : Env) (st : LW) (w : W) (fuel : Nat) :
    (start_tail env st w fuel).stOf.hostname = st.hostname ∧
    (start_tail env st w fuel).stOf.available_port = st.available_port ∧
    (start_tail env st w fuel).stOf.reconnecting = st.reconnecting := by
  unfold start_tail
  obtain ⟨h1, h2, h3, _⟩ := start_json_server_stOf env st fuel w
  cases ho : start_json_server env st fuel w with
  | diverge st' w' =>
    rw [ho] at h1 h2 h3
    exact ⟨h1, h2, h3⟩
  | exn st' w' =>
    rw [ho] at h1 h2 h3
    exact ⟨h1, h2, h3⟩
  | ok st' w' =>
    rw [ho] at h1 h2 h3
    obtain ⟨b1, b2, b3⟩ := bind_client_fields env st' w' fuel
    exact ⟨b1.trans h1, b2.trans h2, b3.trans h3⟩

/-- LocalWorker.start preserves `hostname` and `reconnecting`, keeps the
assigned port when `reconnecting` is unset, and replaces it with the next
fresh allocation when `reconnecting` is set. -/
theorem start_stOf_shape (env : Env) (st : LW) (w : W) (fuel : Nat) :
    (start env st w fuel).stOf.hostname = st.hostname ∧
    (start env st w fuel).stOf.reconnecting = st.reconnecting ∧
    (pyTruthy st.available_port = true → st.reconnecting = false →
      (start env st w fuel).stOf.available_port = st.available_port) ∧
    (pyTruthy st.available_port = true → st.reconnecting = true →
      (start env st w fuel).stOf.available_port = some (env.alloc w.nAlloc)) := by
  obtain ⟨hn, ap, rc, pr, cl⟩ := st
  unfold start
  cases rc <;> cases hap : pyTruthy ap <;>
    simp only [hap, local_port, if_true, if_false, Bool.false_eq_true, Bool.true_eq_false,
      ite_true, ite_false]
  · obtain ⟨g1, g2, g3⟩ := start_tail_fields env
      ⟨hn, some (env.alloc w.nAlloc), false, pr, cl⟩ w.bumpAlloc fuel
    simp_all
  · obtain ⟨g1, g2, g3⟩ := start_tail_fields env ⟨hn, ap, false, pr, cl⟩ w fuel
    simp_all
  · obtain ⟨g1, g2, g3⟩ := start_tail_fields env
      ⟨hn, some (env.alloc w.bumpAlloc.nAlloc), true, pr, cl⟩ w.bumpAlloc.bumpAlloc fuel
    simp_all
  · obtain ⟨g1, g2, g3⟩ := start_tail_fields env
      ⟨hn, some (env.alloc w.nAlloc), true, pr, cl⟩ w.bumpAlloc fuel
    simp_all

/-- The post-restart send leaves the worker state of the outcome
unchanged. -/
theorem execute_send_stOf (o : Outcome) : (execute_send o).stOf = o.stOf := by
  rcases o with ⟨st, w1⟩ | ⟨st, w1⟩ | ⟨st, w1⟩
  · obtain ⟨hn, ap, rc, pr, cl⟩ := st
    cases cl <;> rfl
  · rfl
  · rfl

/-- The registry's start conversion stores exactly the worker state the
start call produced. -/
theorem dispatch_start_entryOf (o : Outcome) :
    (dispatch_start o).entryOf = some o.stOf := by
  rcases o with ⟨st, w1⟩ | ⟨st, w1⟩ | ⟨st, w1⟩ <;> rfl

/-- LocalWorker._execute can only leave the reconnecting flag as it was or
set it to `true`. -/
theorem local_execute_mono (env : Env) (st : LW) (w : W) (fuel : Nat) :
    (local_execute env st w fuel).stOf.reconnecting = st.reconnecting ∨
    (local_execute env st w fuel).stOf.reconnecting = true := by
  unfold local_execute
  cases hcl : st.client with
  | none => left; rfl
  | some c =>
    cases hcc : c.connected
    · right
      have g := (start_stOf_shape env
        { st with reconnecting := true, client := some c } w fuel).2.1
      simp only [hcc, Bool.false_eq_true, if_false, execute_send_stOf]
      exact g
    · left
      simp [hcc, Outcome.stOf]

/-- The dispatch half of the registry's execute can only leave a stored
worker's reconnecting flag as it was or set it to `true`. -/
theorem worker_dispatch_mono (env : Env) (st : LW) (w : W) (fuel : Nat) :
    (worker_dispatch env st w fuel).entryOf.map LW.reconnecting =
      some st.reconnecting ∨
    (worker_dispatch env st w fuel).entryOf.map LW.reconnecting =
      some true := by
  unfold worker_dispatch
  cases hcl : st.client with
  | none =>
    left
    have g := (start_stOf_shape env st w fuel).2.1
    simp only [dispatch_start_entryOf, Option.map_some']
    rw [g]
  | some c =>
    cases hcc : c.connected
    · right
      have g := (start_stOf_shape env
        { st with reconnecting := true, client := some c } w fuel).2.1
      simp only [hcc, Bool.false_eq_true, Bool.true_eq_false, if_true, if_false,
        eq_self_iff_true, dispatch_start_entryOf, Option.map_some']
      rw [g]
    · left
      simp [hcc, ExecResult.entryOf]

/-! ## Claim theorems -/

/-- C7: with the process still running, `server_is_healthy` answers `true`
exactly when the exchange returned the bytes `b'Ok'` (any exception or other
payload gives `false`), the exchange being attempted; with the process already
exited it answers `false` without attempting the exchange. -/
theorem healthy_iff_ok_token :
    (∀ exch : String → Except Unit (List Nat),
      ((server_is_healthy_pure none exch).1 = true ↔
        exch checkPayload = Except.ok OkBytes) ∧
      (server_is_healthy_pure none exch).2 = true) ∧
    (∀ (c : Int) (exch : String → Except Unit (List Nat)),
      server_is_healthy_pure (some c) exch = (false, false)) := by
  constructor
  · intro exch
    cases h : exch checkPayload with
    | error e => simp [server_is_healthy_pure, h]
    | ok data => simp [server_is_healthy_pure, h]
  · intro c exch
    rfl

/-- C3 (bug witness): the completion callback of the remote status check
cannot unblock the constructor.  Because the callback's `checked = True`
binds a callback-local variable (no `nonlocal`), the enclosing frame's
`checked` flag is still `false` after the callback has executed — with any
result, success or failure — and the polling loop of `check_status` never
exits, for any number of iterations.  The claim that the loop terminates
once the callback executes is therefore false of the code. -/
theorem check_status_loop_never_exits :
    ∀ (st : RW) (r : VResult) (fuel : Nat),
      (status_callback st false r).2 = false ∧
      check_status_loop (status_callback st false r).2 fuel = none := by
  intro st r fuel
  have hc : (status_callback st false r).2 = false := by
    unfold status_callback
    split <;> rfl
  refine ⟨hc, ?_⟩
  rw [hc]
  induction fuel with
  | zero => rfl
  | succ n ih => simpa [check_status_loop] using ih

/-- C2 (bug witness): for the scenario configuration, construction hangs in
`check_status` with `support` still unset; the asynchronous callback applied
to the failure result `(False, b'', b'vagrant not running')` does set
`support = False` but leaves the polled `checked` flag untouched, so the
loop spins forever at every fuel; and the statement that would run had
`check_status` returned — line 219, `self.support = True` — would overwrite
`support` with `True`.  Construction therefore never completes marked
unsupported, contradicting the claim. -/
theorem remote_failure_never_completes_unsupported :
    (remote_init
        { directory := some "/work/proj"
          network := some { address := some "10.0.0.5", port := some 19360, mode := some "nat" }
          machine := some "default" } =
      RInit.hang { hostname := some "10.0.0.5", available_port := some 19360
                   reconnecting := false, support := none }) ∧
    (status_callback
        { hostname := some "10.0.0.5", available_port := some 19360
          reconnecting := false, support := none } false
        { success := false, out := [], err := vagrantNotRunning } =
      ({ hostname := some "10.0.0.5", available_port := some 19360
         reconnecting := false, support := some false }, false)) ∧
    (∀ fuel, check_status_loop false fuel = none) ∧
    (remote_init_tail
        { hostname := some "10.0.0.5", available_port := some 19360
          reconnecting := false, support := some false } =
      { hostname := some "10.0.0.5", available_port := some 19360
        reconnecting := false, support := some true }) := by
  refine ⟨rfl, rfl, ?_, rfl⟩
  intro fuel
  induction fuel with
  | zero => rfl
  | succ n ih => simpa [check_status_loop] using ih

/-- C5 (bug witness): with `network.port` absent, `check_config` does mark
the worker unsupported (`support = False`) and construction performs no
probe, but construction then hangs forever inside `check_status` (the
callback cannot set the polled flag), so it never completes; and the final
constructor statement that would run if the loop exited — `self.support =
True` — would overwrite the unsupported marking.  The worker therefore never
completes construction marked unsupported, contradicting the claim. -/
theorem missing_port_not_gated :
    (check_config
        { directory := some "/work/proj"
          network := some { address := some "10.0.0.5", port := none, mode := some "nat" }
          machine := some "default" } RW.base =
      Except.ok ({ hostname := some "localhost", available_port := none
                   reconnecting := false, support := some false }, false)) ∧
    (remote_init
        { directory := some "/work/proj"
          network := some { address := some "10.0.0.5", port := none, mode := some "nat" }
          machine := some "default" } =
      RInit.hang { hostname := some "10.0.0.5", available_port := some 19360
                   reconnecting := false, support := some false }) ∧
    (∀ fuel, check_status_loop false fuel = none) ∧
    (remote_init_tail
        { hostname := some "10.0.0.5", available_port := some 19360
          reconnecting := false, support := some false } =
      { hostname := some "10.0.0.5", available_port := some 19360
        reconnecting := false, support := some true }) := by
  refine ⟨rfl, rfl, ?_, rfl⟩
  intro fuel
  induction fuel with
  | zero => rfl
  | succ n ih => simpa [check_status_loop] using ih

/-- C4 (bug witness): when the chosen supervisor constructor raises, the
registry's `try/except` logs the error and stores no entry, but the very
next statement `worker = WORKERS[window_id]` then raises `KeyError` to the
original caller — `execute` does not return without raising as claimed (the
part of the claim that holds: no entry is stored, so a later call does retry
construction). -/
theorem construction_failure_raises_keyerror :
    ∀ (env : Env) (w : W) (fuel : Nat),
      worker_execute env none (Except.error ()) w fuel = ExecResult.keyError w := by
  intro env w fuel
  rfl

/-- C9: `sanitize_server` closes the client, kills the old process handle
and — provided the endpoint is no longer reachable after the kill, so that
`start_json_server` takes the build branch — respawns: the returned worker
differs from the old one only in `process`, which now holds the freshly
created handle; `hostname` and `available_port` are unchanged, and the trace
records exactly close, kill of the old handle, one failed probe, and the new
spawn. -/
theorem sanitize_respawn (env : Env) (st : LW) (w : W) (fuel : Nat) (c : Client) (p : Nat)
    (hc : st.client = some c) (hp : st.process = some p)
    (hprobe : env.probe w.nProbe = false) :
    sanitize_server env st fuel w =
      Outcome.ok { st with process := some (env.pid w.nPid) }
        { nProbe := w.nProbe + 1, nAlloc := w.nAlloc, nPid := w.nPid + 1, nHealth := w.nHealth
          trace := w.trace ++ [Ev.closeClient, Ev.kill p,
            Ev.probe st.hostname st.available_port false,
            Ev.spawn st.available_port (env.pid w.nPid)] } := by
  unfold sanitize_server sanitize_steps
  rw [hc, hp]
  change start_json_server env st fuel (emit (emit w Ev.closeClient) (Ev.kill p)) = _
  rw [start_json_server]
  simp only [server_is_active, emit, W.bumpProbe, hprobe, Bool.false_eq_true, if_false]
  simp [build_server, emit, W.bumpProbe, W.bumpPid, List.append_assoc]
  exact hc

/-- C6: the ordering of the supervision contract.  Reachable and healthy:
`start_json_server` returns after the two checks alone (no sanitize call, no
build).  Reachable but unhealthy: control transfers to `sanitize_server`
(`build_server` is not called directly).  Not reachable: `build_server` runs
directly after the one probe (no health check, no sanitize call). -/
theorem start_json_server_ordering (env : Env) (st : LW) (w : W) (q : Nat) (fuel n : Nat) :
    (env.probe w.nProbe = true → st.process = some q →
      (server_is_healthy_pure (env.poll w.nHealth) (env.exch w.nHealth)).1 = true →
      start_json_server env st fuel w =
        Outcome.ok st
          (emit (emit w.bumpProbe (Ev.probe st.hostname st.available_port true)).bumpHealth
            (Ev.health true))) ∧
    (env.probe w.nProbe = true → st.process = some q →
      (server_is_healthy_pure (env.poll w.nHealth) (env.exch w.nHealth)).1 = false →
      start_json_server env st (n + 1) w =
        sanitize_server env st n
          (emit (emit (emit w.bumpProbe
            (Ev.probe st.hostname st.available_port true)).bumpHealth
            (Ev.health false)) Ev.sanitizeCall)) ∧
    (env.probe w.nProbe = false →
      start_json_server env st fuel w =
        build_server env st (emit w.bumpProbe (Ev.probe st.hostname st.available_port false))) := by
  refine ⟨?_, ?_, ?_⟩
  · intro h1 h2 h3
    rw [start_json_server]
    simp [server_is_active, h1, server_is_healthy_run, h2, h3, emit, W.bumpProbe, W.bumpHealth]
  · intro h1 h2 h3
    rw [start_json_server]
    simp [server_is_active, h1, server_is_healthy_run, h2, h3, emit, W.bumpProbe, W.bumpHealth,
      sanitize_server]
  · intro h1
    rw [start_json_server]
    simp [server_is_active, h1]

/-- C8: port stability of the local supervisor.  With `reconnecting` unset,
a `start()` call leaves the assigned (truthy) port unchanged and leaves
`reconnecting` unset, so the port is unchanged across repeated `start()`
calls; with `reconnecting` set, the next `start()` replaces the port with
the next fresh ephemeral allocation. -/
theorem port_stability (env : Env) (st : LW) (w : W) (fuel : Nat) :
    (st.reconnecting = false → pyTruthy st.available_port = true →
      (start env st w fuel).stOf.available_port = st.available_port ∧
      (start env st w fuel).stOf.reconnecting = false) ∧
    (st.reconnecting = true → pyTruthy st.available_port = true →
      (start env st w fuel).stOf.available_port = some (env.alloc w.nAlloc)) := by
  obtain ⟨g1, g2, g3, g4⟩ := start_stOf_shape env st w fuel
  refine ⟨fun hr ht => ⟨g3 ht hr, ?_⟩, fun hr ht => g4 ht hr⟩
  rw [g2, hr]

/-- Witness for C8 at a concrete input: with port 54321 assigned and
`reconnecting` unset the port survives a `start()` call; with `reconnecting`
set it becomes the fresh allocation 7. -/
theorem port_stability_check :
    (start (envK 0 7 9)
        { hostname := "localhost", available_port := some 54321, reconnecting := false
          process := none, client := none } W.base 1).stOf.available_port = some 54321 ∧
    (start (envK 0 7 9)
        { hostname := "localhost", available_port := some 54321, reconnecting := true
          process := none, client := none } W.base 1).stOf.available_port = some 7 := by
  constructor
  · exact ((port_stability (envK 0 7 9)
      { hostname := "localhost", available_port := some 54321, reconnecting := false
        process := none, client := none } W.base 1).1 rfl rfl).1
  · exact (port_stability (envK 0 7 9)
      { hostname := "localhost", available_port := some 54321, reconnecting := true
        process := none, client := none } W.base 1).2 rfl rfl

/-- C10: nothing in the worker subsystem ever resets the reconnecting flag:
`start` returns it exactly as it found it, and both `_execute` and the
registry dispatch can only leave it or raise it to `true` (set, it stays
set; coming out unset means it went in unset); consequently, once the flag
is set, every subsequent `start()` replaces the assigned port with a fresh
allocation. -/
theorem reconnecting_never_reset (env : Env) (st : LW) (w : W) (fuel : Nat) :
    ((start env st w fuel).stOf.reconnecting = st.reconnecting) ∧
    (st.reconnecting = true → (local_execute env st w fuel).stOf.reconnecting = true) ∧
    ((local_execute env st w fuel).stOf.reconnecting = false → st.reconnecting = false) ∧
    (st.reconnecting = true →
      (worker_dispatch env st w fuel).entryOf.map LW.reconnecting = some true) ∧
    (∀ lw', (worker_dispatch env st w fuel).entryOf = some lw' →
      lw'.reconnecting = false → st.reconnecting = false) ∧
    (st.reconnecting = true → pyTruthy st.available_port = true →
      (start env st w fuel).stOf.available_port = some (env.alloc w.nAlloc)) := by
  obtain ⟨g1, g2, g3, g4⟩ := start_stOf_shape env st w fuel
  refine ⟨g2, ?_, ?_, ?_, ?_, fun hr ht => g4 ht hr⟩
  · intro hr
    rcases local_execute_mono env st w fuel with h | h
    · rw [h, hr]
    · exact h
  · intro hres
    rcases local_execute_mono env st w fuel with h | h
    · rw [← h, hres]
    · rw [h] at hres
      exact absurd hres (by simp)
  · intro hr
    rcases worker_dispatch_mono env st w fuel with h | h
    · rw [h, hr]
    · exact h
  · intro lw' hentry hres
    rcases worker_dispatch_mono env st w fuel with h | h
    · rw [hentry] at h
      simp only [Option.map_some', Option.some.injEq] at h
      rw [← h, hres]
    · rw [hentry] at h
      simp only [Option.map_some', Option.some.injEq] at h
      rw [h] at hres
      exact absurd hres (by simp)

/-- Witness for C10 at a concrete input: a worker whose flag is already set
keeps it set through `_execute` with a disconnected client, and its next
`start()` takes the fresh allocation 7 over the assigned 54321. -/
theorem reconnecting_never_reset_check :
    (local_execute (envK 0 7 9)
        { hostname := "localhost", available_port := some 54321, reconnecting := true
          process := none
          client := some { host := "localhost", port := some 54321, connected := false } }
        W.base 1).stOf.reconnecting = true ∧
    (start (envK 0 7 9)
        { hostname := "localhost", available_port := some 54321, reconnecting := true
          process := none
          client := some { host := "localhost", port := some 54321, connected := false } }
        W.base 1).stOf.available_port = some 7 ∧
    ({ hostname := "localhost", available_port := some 54321, reconnecting := false
       process := none, client := none } : LW).reconnecting = false := by
  refine ⟨?_, ?_, ?_⟩
  · exact (reconnecting_never_reset (envK 0 7 9)
      { hostname := "localhost", available_port := some 54321, reconnecting := true
        process := none
        client := some { host := "localhost", port := some 54321, connected := false } }
      W.base 1).2.1 rfl
  · exact (reconnecting_never_reset (envK 0 7 9)
      { hostname := "localhost", available_port := some 54321, reconnecting := true
        process := none
        client := some { host := "localhost", port := some 54321, connected := false } }
      W.base 1).2.2.2.2.2 rfl rfl
  · exact (reconnecting_never_reset (envK 0 7 9)
      { hostname := "localhost", available_port := some 54321, reconnecting := false
        process := none, client := none }
      W.base 1).2.2.2.2.1
      { hostname := "localhost", available_port := some 54321, reconnecting := false
        process := none, client := none } (by decide) (by decide)

/-- C1 (counterexample to the claim as stated): in the scenario — no
registered worker, port 54321 allocated, probe refused for 3 polling
iterations and then successful — `execute` does bind an RPC client to
`(localhost, 54321)`, but the pending command is forwarded zero times, not
exactly once: the first call's only effect is to start the worker and bind
the client, and the command is dropped. -/
theorem execute_scenario_forwards_zero :
    ((worker_execute (envK 3 54321 100) none (Except.ok LW.base) W.base 10).entryOf.map
        (fun lw => lw.client)) =
      some (some { host := "localhost", port := some 54321, connected := true }) ∧
    sends (worker_execute (envK 3 54321 100) none (Except.ok LW.base) W.base 10).traceOf = 0 ∧
    sends (worker_execute (envK 3 54321 100) none (Except.ok LW.base) W.base 10).traceOf ≠ 1 := by
  refine ⟨?_, ?_, ?_⟩ <;> decide

/-- C1 (amended): for a session with no registered worker, when the probe
is refused for `k ≥ 1` polling iterations and then succeeds, the registry's
execute constructs the LocalWorker, the start binds an RPC client to
`(localhost, allocated port)` — and the pending command is forwarded zero
times; the first execute call only starts the worker and drops the
command. -/
theorem execute_binds_client_forwards_nothing (k p pid fuel : Nat)
    (hk : 1 ≤ k) (hf : k ≤ fuel) :
    ∃ w', worker_execute (envK k p pid) none (Except.ok LW.base) W.base fuel =
        ExecResult.ok (some
          { hostname := "localhost", available_port := some p, reconnecting := false
            process := some pid
            client := some { host := "localhost", port := some p, connected := true } }) w' ∧
      sends w'.trace = 0 := by
  have hd0 : decide (k ≤ 0) = false := by
    simp only [decide_eq_false_iff_not]
    omega
  have hjson : start_json_server (envK k p pid)
      { hostname := "localhost", available_port := some p, reconnecting := false
        process := none, client := none }
      fuel { nProbe := 0, nAlloc := 1, nPid := 0, nHealth := 0, trace := [] } =
      Outcome.ok
        { hostname := "localhost", available_port := some p, reconnecting := false
          process := some pid, client := none }
        { nProbe := 1, nAlloc := 1, nPid := 1, nHealth := 0
          trace := [Ev.probe "localhost" (some p) false, Ev.spawn (some p) pid] } := by
    rw [start_json_server]
    have hact : server_is_active (envK k p pid)
        { hostname := "localhost", available_port := some p, reconnecting := false
          process := none, client := none }
        { nProbe := 0, nAlloc := 1, nPid := 0, nHealth := 0, trace := [] } =
        (false, { nProbe := 1, nAlloc := 1, nPid := 0, nHealth := 0
                  trace := [Ev.probe "localhost" (some p) false] }) := by
      simp [server_is_active, envK, hd0, emit, W.bumpProbe]
      omega
    rw [hact]
    rfl
  obtain ⟨w3, hw3⟩ := poll_active_envK k p pid
    { hostname := "localhost", available_port := some p, reconnecting := false
      process := some pid, client := none } fuel
    { nProbe := 1, nAlloc := 1, nPid := 1, nHealth := 0
      trace := [Ev.probe "localhost" (some p) false, Ev.spawn (some p) pid] }
    (by show (1 : Nat) ≤ k; omega) (by show k < 1 + fuel; omega)
  have hsend := poll_active_sends (envK k p pid)
    { hostname := "localhost", available_port := some p, reconnecting := false
      process := some pid, client := none } fuel
    { nProbe := 1, nAlloc := 1, nPid := 1, nHealth := 0
      trace := [Ev.probe "localhost" (some p) false, Ev.spawn (some p) pid] } w3 hw3
  refine ⟨emit w3 (Ev.bind "localhost" (some p)), ?_, ?_⟩
  · show dispatch_start (start (envK k p pid) LW.base W.base fuel) = _
    have hstart : start (envK k p pid) LW.base W.base fuel =
        start_tail (envK k p pid)
          { hostname := "localhost", available_port := some p, reconnecting := false
            process := none, client := none }
          { nProbe := 0, nAlloc := 1, nPid := 0, nHealth := 0, trace := [] } fuel := rfl
    have htail : start_tail (envK k p pid)
        { hostname := "localhost", available_port := some p, reconnecting := false
          process := none, client := none }
        { nProbe := 0, nAlloc := 1, nPid := 0, nHealth := 0, trace := [] } fuel =
        bind_client (envK k p pid)
          { hostname := "localhost", available_port := some p, reconnecting := false
            process := some pid, client := none }
          { nProbe := 1, nAlloc := 1, nPid := 1, nHealth := 0
            trace := [Ev.probe "localhost" (some p) false, Ev.spawn (some p) pid] } fuel := by
      unfold start_tail
      rw [hjson]
    have hbindc : bind_client (envK k p pid)
        { hostname := "localhost", available_port := some p, reconnecting := false
          process := some pid, client := none }
        { nProbe := 1, nAlloc := 1, nPid := 1, nHealth := 0
          trace := [Ev.probe "localhost" (some p) false, Ev.spawn (some p) pid] } fuel =
        Outcome.ok
          { hostname := "localhost", available_port := some p, reconnecting := false
            process := some pid
            client := some { host := "localhost", port := some p, connected := true } }
          (emit w3 (Ev.bind "localhost" (some p))) := by
      unfold bind_client
      rw [hw3]
      rfl
    rw [hstart, htail, hbindc]
    rfl
  · show sends (w3.trace ++ [Ev.bind "localhost" (some p)]) = 0
    rw [sends_append, hsend]
    rfl

/-- Witness for the amended C1 at the scenario input: three refusals, port
54321, handle 100 — the client is bound and nothing is forwarded. -/
theorem execute_binds_client_forwards_nothing_check :
    ∃ w', worker_execute (envK 3 54321 100) none (Except.ok LW.base) W.base 10 =
        ExecResult.ok (some
          { hostname := "localhost", available_port := some 54321, reconnecting := false
            process := some 100
            client := some { host := "localhost", port := some 54321, connected := true } }) w' ∧
      sends w'.trace = 0 :=
  execute_binds_client_forwards_nothing 3 54321 100 10 (by decide) (by decide)

/-- Witness for C6 at concrete inputs: a healthy endpoint gives a bare
return after the two checks, an unhealthy one hands control to
`sanitize_server`, an unreachable one goes straight to `build_server`. -/
theorem start_json_server_ordering_check :
    (start_json_server
        { probe := fun _ => true, alloc := fun _ => 0, pid := fun _ => 1
          poll := fun _ => none, exch := fun _ _ => Except.ok OkBytes }
        { hostname := "localhost", available_port := some 5, reconnecting := false
          process := some 3, client := none } 5 W.base =
      Outcome.ok
        { hostname := "localhost", available_port := some 5, reconnecting := false
          process := some 3, client := none }
        (emit (emit W.base.bumpProbe (Ev.probe "localhost" (some 5) true)).bumpHealth
          (Ev.health true))) ∧
    (start_json_server
        { probe := fun _ => true, alloc := fun _ => 0, pid := fun _ => 1
          poll := fun _ => none, exch := fun _ _ => Except.ok [1] }
        { hostname := "localhost", available_port := some 5, reconnecting := false
          process := some 3, client := none } 3 W.base =
      sanitize_server
        { probe := fun _ => true, alloc := fun _ => 0, pid := fun _ => 1
          poll := fun _ => none, exch := fun _ _ => Except.ok [1] }
        { hostname := "localhost", available_port := some 5, reconnecting := false
          process := some 3, client := none } 2
        (emit (emit (emit W.base.bumpProbe (Ev.probe "localhost" (some 5) true)).bumpHealth
          (Ev.health false)) Ev.sanitizeCall)) ∧
    (start_json_server
        { probe := fun _ => false, alloc := fun _ => 0, pid := fun _ => 1
          poll := fun _ => none, exch := fun _ _ => Except.ok OkBytes }
        { hostname := "localhost", available_port := some 5, reconnecting := false
          process := some 3, client := none } 5 W.base =
      build_server
        { probe := fun _ => false, alloc := fun _ => 0, pid := fun _ => 1
          poll := fun _ => none, exch := fun _ _ => Except.ok OkBytes }
        { hostname := "localhost", available_port := some 5, reconnecting := false
          process := some 3, client := none }
        (emit W.base.bumpProbe (Ev.probe "localhost" (some 5) false))) := by
  refine ⟨?_, ?_, ?_⟩
  · exact (start_json_server_ordering
      { probe := fun _ => true, alloc := fun _ => 0, pid := fun _ => 1
        poll := fun _ => none, exch := fun _ _ => Except.ok OkBytes }
      { hostname := "localhost", available_port := some 5, reconnecting := false
        process := some 3, client := none } W.base 3 5 0).1 rfl rfl rfl
  · exact (start_json_server_ordering
      { probe := fun _ => true, alloc := fun _ => 0, pid := fun _ => 1
        poll := fun _ => none, exch := fun _ _ => Except.ok [1] }
      { hostname := "localhost", available_port := some 5, reconnecting := false
        process := some 3, client := none } W.base 3 0 2).2.1 rfl rfl rfl
  · exact (start_json_server_ordering
      { probe := fun _ => false, alloc := fun _ => 0, pid := fun _ => 1
        poll := fun _ => none, exch := fun _ _ => Except.ok OkBytes }
      { hostname := "localhost", available_port := some 5, reconnecting := false
        process := some 3, client := none } W.base 3 5 0).2.2 rfl

/-- Witness for C9 at a concrete input: killing process 5 and finding the
endpoint unreachable respawns handle 9 with hostname and port intact. -/
theorem sanitize_respawn_check :
    sanitize_server (envK 1 7 9)
      { hostname := "localhost", available_port := some 54321, reconnecting := false
        process := some 5
        client := some { host := "localhost", port := some 54321, connected := true } }
      3 W.base =
    Outcome.ok
      { hostname := "localhost", available_port := some 54321, reconnecting := false
        process := some 9
        client := some { host := "localhost", port := some 54321, connected := true } }
      { nProbe := 1, nAlloc := 0, nPid := 1, nHealth := 0
        trace := [Ev.closeClient, Ev.kill 5, Ev.probe "localhost" (some 54321) false,
          Ev.spawn (some 54321) 9] } :=
  sanitize_respawn (envK 1 7 9)
    { hostname := "localhost", available_port := some 54321, reconnecting := false
      process := some 5
      client := some { host := "localhost", port := some 54321, connected := true } }
    W.base 3 { host := "localhost", port := some 54321, connected := true } 5 rfl rfl rfl

end Anaconda
